import Mathlib

/-!
Shallow embedding of the Command & Telemetry core of the CubeSat_1u STM32
firmware (Core/Src/main.c, Core/Src/communication.c, Core/Inc/main.h,
Core/Inc/communication.h), together with theorems settling the frozen
claims about it.

Machine integers are modelled as `Nat` with explicit `% 2^w` where the C
code relies on wraparound.  The `float` fields of `TelemetryPacket_t` are
carried as their raw 32-bit patterns (`Nat < 2^32`); the encode and decode
paths of the firmware only ever copy their bytes, never interpret them.
The `int32_t` GPS fields are likewise carried as raw little-endian 32-bit
patterns.
-/

set_option maxRecDepth 100000

namespace CubeSat

/-! ## Constants from Core/Inc/main.h -/

def STATE_BOOT : Nat := 0x00

def STATE_IDLE : Nat := 0x01

def STATE_NOMINAL : Nat := 0x02

def STATE_SAFE : Nat := 0x03

def STATE_LOW_POWER : Nat := 0x04

def STATE_EMERGENCY : Nat := 0x05

def STATE_IMAGE_CAPTURE : Nat := 0x06

def STATE_DATA_TX : Nat := 0x07

def CMD_PING : Nat := 0x01

def CMD_GET_TELEMETRY : Nat := 0x02

def CMD_CAPTURE_IMAGE : Nat := 0x03

def CMD_SET_MODE : Nat := 0x04

def CMD_RESET : Nat := 0x05

def CMD_TRANSMIT_FILE : Nat := 0x06

def CMD_UPDATE_FIRMWARE : Nat := 0x07

def CMD_SET_SCHEDULE : Nat := 0x08

def CMD_BEACON : Nat := 0x09

def ERROR_I2C : Nat := 0x01

def ERROR_SPI : Nat := 0x02

def ERROR_UART : Nat := 0x03

def ERROR_ADC : Nat := 0x04

def ERROR_BATTERY : Nat := 0x05

def ERROR_TEMPERATURE : Nat := 0x06

def ERROR_TASK_HANG : Nat := 0x07

def ERROR_MEMORY : Nat := 0x08

/-- Modelled from the spec: the macro `ERROR_UNKNOWN_COMMAND` is referenced
by the `default` branch of `ProcessCommand` (main.c line 513) but is defined
in none of the repository headers.  Section 4.2 of the design document says
an unrecognized command identifier must "record a fault in ErrorFlags".
The numeric value is not determined by the source; the next code after the
enumeration `0x00 .. 0x08` of main.h is used, and no theorem below depends
on the particular value. -/
def ERROR_UNKNOWN_COMMAND : Nat := 0x09

def BATTERY_CRITICAL : Nat := 3400

/-- Size in bytes of the packed `TelemetryPacket_t` of main.h:
3 + 2 + 4 + 12 + 2 + 4 + 16 + 12 + 2 + 2 + 2 + 3 + 4 + 2 = 70. -/
def TELEMETRY_SIZE : Nat := 70

/-- Size in bytes of the packed `CommandPacket_t` of main.h:
1 + 1 + 1 + 2 + 2 + 64 + 2 = 73. -/
def COMMAND_SIZE : Nat := 73

def UART_RX_BUFFER_SIZE : Nat := 256

/-! ## Checksum (main.c, `CalculateChecksum`) -/

/-- Model of `CalculateChecksum`: sum the covered bytes into a 16-bit
accumulator with wraparound, then take the bitwise complement (for a value
below `2^16` the complement is `65535 - x`). -/
def CalculateChecksum (bytes : List Nat) : Nat :=
  65535 - bytes.foldl (fun acc b => (acc + b) % 65536) 0

/-! ## Packet structures and their packed wire layout -/

/-- Model of `CommandPacket_t` (main.h).  `parameters` models the fixed
`uint8_t parameters[64]` array. -/
structure CommandPacket_t where
  sync1 : Nat
  sync2 : Nat
  command_id : Nat
  sequence_number : Nat
  parameter_length : Nat
  parameters : List Nat
  checksum : Nat
deriving DecidableEq

/-- Well-formedness of a command packet: every field fits its C type and
the parameter array has its fixed capacity 64. -/
def CommandPacket_t.WF (p : CommandPacket_t) : Prop :=
  p.sync1 < 256 ∧ p.sync2 < 256 ∧ p.command_id < 256 ∧
  p.sequence_number < 65536 ∧ p.parameter_length < 65536 ∧
  p.parameters.length = 64 ∧ (∀ b ∈ p.parameters, b < 256) ∧
  p.checksum < 65536

instance (p : CommandPacket_t) : Decidable p.WF := by
  unfold CommandPacket_t.WF
  infer_instance

/-- Bytes of the fixed 64-byte parameter array as laid out in memory
(each entry reduced to a byte, padded with zeros to capacity). -/
def paramBytes (p : CommandPacket_t) : List Nat :=
  ((p.parameters.map (fun b => b % 256)) ++ List.replicate 64 0).take 64

/-- First 71 bytes of the packed `CommandPacket_t` layout: everything
before the trailing two-byte checksum field. -/
def commandBody (p : CommandPacket_t) : List Nat :=
  p.sync1 % 256 :: p.sync2 % 256 :: p.command_id % 256 ::
  p.sequence_number % 256 :: p.sequence_number / 256 % 256 ::
  p.parameter_length % 256 :: p.parameter_length / 256 % 256 ::
  paramBytes p

/-- Packed little-endian byte image of a `CommandPacket_t`, exactly the 73
bytes a byte-wise copy of the struct produces. -/
def serializeCommand (p : CommandPacket_t) : List Nat :=
  commandBody p ++ [p.checksum % 256, p.checksum / 256 % 256]

/-- Model of the struct cast `(CommandPacket_t*)rx_buffer` performed by
`COMM_ProcessReceivedData`: read the packed fields back from the first 73
bytes.  A list shorter than the header yields the all-zero packet (the C
cast would read whatever lies in the buffer; this case is never exercised
by the theorems below). -/
def deserializeCommand (bs : List Nat) : CommandPacket_t :=
  match bs with
  | b0 :: b1 :: b2 :: b3 :: b4 :: b5 :: b6 :: rest =>
      { sync1 := b0, sync2 := b1, command_id := b2,
        sequence_number := b3 + 256 * b4,
        parameter_length := b5 + 256 * b6,
        parameters := rest.take 64,
        checksum := rest.getD 64 0 + 256 * rest.getD 65 0 }
  | _ =>
      { sync1 := 0, sync2 := 0, command_id := 0, sequence_number := 0,
        parameter_length := 0, parameters := List.replicate 64 0,
        checksum := 0 }

/-- Modelled from the spec: section 4.1 requires
an encoder `encode(packet) -> byte sequence with checksum filled in` for
both packet kinds, but the repository contains no command-frame encoder
(command frames originate from the companion computer).  Following the
wire layout of section 6 (`sync1 = 0xAA`, `sync2 = 0x56`) and the checksum
convention of `COMM_SendTelemetry`, the encoder fixes the sync bytes and
embeds the checksum of all bytes except the trailing checksum field. -/
def encodeCommand (p : CommandPacket_t) : List Nat :=
  let q : CommandPacket_t := { p with sync1 := 0xAA, sync2 := 0x56 }
  serializeCommand { q with checksum := CalculateChecksum (commandBody q) }

/-- Model of `TelemetryPacket_t` (main.h).  Fields of C type `float` and
`int32_t` are carried as their raw little-endian 32-bit patterns. -/
structure TelemetryPacket_t where
  sync1 : Nat
  sync2 : Nat
  packet_type : Nat
  sequence_number : Nat
  timestamp : Nat
  mag_x : Nat
  mag_y : Nat
  mag_z : Nat
  corrosion_raw : Nat
  radiation_cps : Nat
  temperature_bme : Nat
  pressure : Nat
  humidity : Nat
  temperature_tmp : Nat
  latitude : Nat
  longitude : Nat
  altitude : Nat
  gps_quality : Nat
  gps_satellites : Nat
  battery_voltage : Nat
  battery_current : Nat
  boot_count : Nat
  error_flags : Nat
  system_state : Nat
  uptime : Nat
  checksum : Nat
deriving DecidableEq

/-- Well-formedness of a telemetry packet: every field fits its C type. -/
def TelemetryPacket_t.WF (p : TelemetryPacket_t) : Prop :=
  p.sync1 < 256 ∧ p.sync2 < 256 ∧ p.packet_type < 256 ∧
  p.sequence_number < 65536 ∧ p.timestamp < 4294967296 ∧
  p.mag_x < 4294967296 ∧ p.mag_y < 4294967296 ∧ p.mag_z < 4294967296 ∧
  p.corrosion_raw < 65536 ∧ p.radiation_cps < 4294967296 ∧
  p.temperature_bme < 4294967296 ∧ p.pressure < 4294967296 ∧
  p.humidity < 4294967296 ∧ p.temperature_tmp < 4294967296 ∧
  p.latitude < 4294967296 ∧ p.longitude < 4294967296 ∧
  p.altitude < 4294967296 ∧ p.gps_quality < 256 ∧ p.gps_satellites < 256 ∧
  p.battery_voltage < 65536 ∧ p.battery_current < 65536 ∧
  p.boot_count < 256 ∧ p.error_flags < 256 ∧ p.system_state < 256 ∧
  p.uptime < 4294967296 ∧ p.checksum < 65536

instance (p : TelemetryPacket_t) : Decidable p.WF := by
  unfold TelemetryPacket_t.WF
  infer_instance

/-- First 68 bytes of the packed `TelemetryPacket_t` layout: everything
before the trailing two-byte checksum field. -/
def telemetryBody (p : TelemetryPacket_t) : List Nat :=
  [p.sync1 % 256, p.sync2 % 256, p.packet_type % 256,
   p.sequence_number % 256, p.sequence_number / 256 % 256,
   p.timestamp % 256, p.timestamp / 256 % 256,
   p.timestamp / 65536 % 256, p.timestamp / 16777216 % 256,
   p.mag_x % 256, p.mag_x / 256 % 256,
   p.mag_x / 65536 % 256, p.mag_x / 16777216 % 256,
   p.mag_y % 256, p.mag_y / 256 % 256,
   p.mag_y / 65536 % 256, p.mag_y / 16777216 % 256,
   p.mag_z % 256, p.mag_z / 256 % 256,
   p.mag_z / 65536 % 256, p.mag_z / 16777216 % 256,
   p.corrosion_raw % 256, p.corrosion_raw / 256 % 256,
   p.radiation_cps % 256, p.radiation_cps / 256 % 256,
   p.radiation_cps / 65536 % 256, p.radiation_cps / 16777216 % 256,
   p.temperature_bme % 256, p.temperature_bme / 256 % 256,
   p.temperature_bme / 65536 % 256, p.temperature_bme / 16777216 % 256,
   p.pressure % 256, p.pressure / 256 % 256,
   p.pressure / 65536 % 256, p.pressure / 16777216 % 256,
   p.humidity % 256, p.humidity / 256 % 256,
   p.humidity / 65536 % 256, p.humidity / 16777216 % 256,
   p.temperature_tmp % 256, p.temperature_tmp / 256 % 256,
   p.temperature_tmp / 65536 % 256, p.temperature_tmp / 16777216 % 256,
   p.latitude % 256, p.latitude / 256 % 256,
   p.latitude / 65536 % 256, p.latitude / 16777216 % 256,
   p.longitude % 256, p.longitude / 256 % 256,
   p.longitude / 65536 % 256, p.longitude / 16777216 % 256,
   p.altitude % 256, p.altitude / 256 % 256,
   p.altitude / 65536 % 256, p.altitude / 16777216 % 256,
   p.gps_quality % 256, p.gps_satellites % 256,
   p.battery_voltage % 256, p.battery_voltage / 256 % 256,
   p.battery_current % 256, p.battery_current / 256 % 256,
   p.boot_count % 256, p.error_flags % 256, p.system_state % 256,
   p.uptime % 256, p.uptime / 256 % 256,
   p.uptime / 65536 % 256, p.uptime / 16777216 % 256]

/-- Packed little-endian byte image of a `TelemetryPacket_t`, the 70 bytes
`HAL_UART_Transmit(&huart1, (uint8_t*)packet, sizeof(TelemetryPacket_t))`
sends. -/
def serializeTelemetry (p : TelemetryPacket_t) : List Nat :=
  telemetryBody p ++ [p.checksum % 256, p.checksum / 256 % 256]

/-- Reading the packed `TelemetryPacket_t` fields back from the first 70
bytes of a buffer (the memory layout of main.h read in reverse).  A list
shorter than the layout yields the all-zero packet. -/
def deserializeTelemetry (bs : List Nat) : TelemetryPacket_t :=
  match bs with
  | b0 :: b1 :: b2 :: b3 :: b4 :: b5 :: b6 :: b7 :: b8 :: b9 ::
    b10 :: b11 :: b12 :: b13 :: b14 :: b15 :: b16 :: b17 :: b18 :: b19 ::
    b20 :: b21 :: b22 :: b23 :: b24 :: b25 :: b26 :: b27 :: b28 :: b29 ::
    b30 :: b31 :: b32 :: b33 :: b34 :: b35 :: b36 :: b37 :: b38 :: b39 ::
    b40 :: b41 :: b42 :: b43 :: b44 :: b45 :: b46 :: b47 :: b48 :: b49 ::
    b50 :: b51 :: b52 :: b53 :: b54 :: b55 :: b56 :: b57 :: b58 :: b59 ::
    b60 :: b61 :: b62 :: b63 :: b64 :: b65 :: b66 :: b67 :: b68 :: b69 :: _ =>
      { sync1 := b0, sync2 := b1, packet_type := b2,
        sequence_number := b3 + 256 * b4,
        timestamp := b5 + 256 * b6 + 65536 * b7 + 16777216 * b8,
        mag_x := b9 + 256 * b10 + 65536 * b11 + 16777216 * b12,
        mag_y := b13 + 256 * b14 + 65536 * b15 + 16777216 * b16,
        mag_z := b17 + 256 * b18 + 65536 * b19 + 16777216 * b20,
        corrosion_raw := b21 + 256 * b22,
        radiation_cps := b23 + 256 * b24 + 65536 * b25 + 16777216 * b26,
        temperature_bme := b27 + 256 * b28 + 65536 * b29 + 16777216 * b30,
        pressure := b31 + 256 * b32 + 65536 * b33 + 16777216 * b34,
        humidity := b35 + 256 * b36 + 65536 * b37 + 16777216 * b38,
        temperature_tmp := b39 + 256 * b40 + 65536 * b41 + 16777216 * b42,
        latitude := b43 + 256 * b44 + 65536 * b45 + 16777216 * b46,
        longitude := b47 + 256 * b48 + 65536 * b49 + 16777216 * b50,
        altitude := b51 + 256 * b52 + 65536 * b53 + 16777216 * b54,
        gps_quality := b55, gps_satellites := b56,
        battery_voltage := b57 + 256 * b58,
        battery_current := b59 + 256 * b60,
        boot_count := b61, error_flags := b62, system_state := b63,
        uptime := b64 + 256 * b65 + 65536 * b66 + 16777216 * b67,
        checksum := b68 + 256 * b69 }
  | _ =>
      { sync1 := 0, sync2 := 0, packet_type := 0, sequence_number := 0,
        timestamp := 0, mag_x := 0, mag_y := 0, mag_z := 0,
        corrosion_raw := 0, radiation_cps := 0, temperature_bme := 0,
        pressure := 0, humidity := 0, temperature_tmp := 0,
        latitude := 0, longitude := 0, altitude := 0, gps_quality := 0,
        gps_satellites := 0, battery_voltage := 0, battery_current := 0,
        boot_count := 0, error_flags := 0, system_state := 0, uptime := 0,
        checksum := 0 }

/-- Model of `COMM_SendTelemetry` (main.c): the encoder overwrites `sync1`,
`sync2`, `packet_type` and `timestamp` (with the current tick), computes
the checksum over the first `sizeof(TelemetryPacket_t) - 2` bytes, stores
it in the checksum field and emits the packed bytes. -/
def encodeTelemetry (tick : Nat) (p : TelemetryPacket_t) : List Nat :=
  let q : TelemetryPacket_t :=
    { p with sync1 := 0xAA, sync2 := 0x55, packet_type := 0x01,
             timestamp := tick }
  serializeTelemetry { q with checksum := CalculateChecksum (telemetryBody q) }

/-! ## Command dispatcher (main.c, `ProcessCommand`) -/

/-- Observable side effects of the command dispatcher. -/
inductive Effect where
  | uartTx : List Nat → Effect
  | sendTelemetry : Effect
  | piWakePulse : Effect
  | systemReset : Effect
  | logError : Nat → Effect
deriving DecidableEq

/-- Result of one dispatcher run: the new `system_state`, the emitted side
effects in order, and the indices of `parameters` the run read (through
the checksum computation, the `SetMode` parameter access, or the verbatim
retransmission of the struct). -/
structure DispatchResult where
  state : Nat
  effects : List Effect
  paramReads : List Nat
deriving DecidableEq

/-- Model of `ProcessCommand` (main.c lines 464-516), acting on the current
`system_state` and returning the updated state together with the effect
trace and the parameter indices read.  The checksum is recomputed over the
first `sizeof(CommandPacket_t) - 2` bytes of the packed struct; computing
it reads all 64 parameter bytes, as does the verbatim retransmission in
the `CMD_TRANSMIT_FILE` branch. -/
def ProcessCommand (st : Nat) (cmd : CommandPacket_t) : DispatchResult :=
  if cmd.sync1 ≠ 0xAA ∨ cmd.sync2 ≠ 0x56 then
    { state := st, effects := [], paramReads := [] }
  else
    let chk := CalculateChecksum ((serializeCommand cmd).take 71)
    if chk ≠ cmd.checksum then
      { state := st, effects := [Effect.logError ERROR_UART],
        paramReads := List.range 64 }
    else if cmd.command_id = CMD_PING then
      { state := st,
        effects := [Effect.uartTx [0xAA, 0x57, 0x01, cmd.sequence_number % 256]],
        paramReads := List.range 64 }
    else if cmd.command_id = CMD_GET_TELEMETRY then
      { state := st, effects := [Effect.sendTelemetry],
        paramReads := List.range 64 }
    else if cmd.command_id = CMD_CAPTURE_IMAGE then
      { state := STATE_IMAGE_CAPTURE, effects := [Effect.piWakePulse],
        paramReads := List.range 64 }
    else if cmd.command_id = CMD_SET_MODE then
      if cmd.parameter_length ≥ 1 then
        { state := cmd.parameters.getD 0 0, effects := [],
          paramReads := 0 :: List.range 64 }
      else
        { state := st, effects := [], paramReads := List.range 64 }
    else if cmd.command_id = CMD_RESET then
      { state := st, effects := [Effect.systemReset],
        paramReads := List.range 64 }
    else if cmd.command_id = CMD_TRANSMIT_FILE then
      { state := st, effects := [Effect.uartTx (serializeCommand cmd)],
        paramReads := List.range 64 ++ List.range 64 }
    else
      { state := st, effects := [Effect.logError ERROR_UNKNOWN_COMMAND],
        paramReads := List.range 64 }

/-- Model of `LogError` (main.c): OR the numeric error code into the sticky
`error_flags` byte of the shared telemetry record. -/
def LogError (error_flags error_code : Nat) : Nat :=
  error_flags ||| error_code

/-! ## Frame codec (communication.c, `COMM_ProcessReceivedData`) -/

/-- Persistent parser state of `COMM_ProcessReceivedData`: the 256-byte
`rx_buffer` and the static locals `rx_index`, `expected_length` and
`packet_type`. -/
structure CommState where
  rx_buffer : List Nat
  rx_index : Nat
  expected_length : Nat
  packet_type : Nat
deriving DecidableEq

/-- State at firmware start: zeroed buffer and zeroed statics. -/
def initialCommState : CommState :=
  { rx_buffer := List.replicate 256 0, rx_index := 0,
    expected_length := 0, packet_type := 0 }

/-- Result of processing one received byte: the successor state, the
command frame enqueued by this byte (if its arrival completed a Command
frame), and the buffer index the byte was written to. -/
structure RxStep where
  state : CommState
  emitted : Option (List Nat)
  writeIndex : Nat
deriving DecidableEq

/-- Model of one iteration of the `for` loop of `COMM_ProcessReceivedData`
(communication.c lines 18-48): store the byte at `rx_index` and advance;
reject a first byte that is not `0xAA`; at the second byte select the
expected length from the type byte or reject; on reaching
`expected_length`, enqueue the first `sizeof(CommandPacket_t)` buffer
bytes when the frame is a Command frame, and clear the accumulation
index.  No checksum is inspected here. -/
def processByte (s : CommState) (b : Nat) : RxStep :=
  let buf := s.rx_buffer.set s.rx_index b
  let idx := s.rx_index + 1
  if idx = 1 ∧ buf.getD 0 0 ≠ 0xAA then
    { state := { s with rx_buffer := buf, rx_index := 0 },
      emitted := none, writeIndex := s.rx_index }
  else
    let step2 : Nat × Nat × Nat :=
      if idx = 2 then
        if buf.getD 1 0 = 0x55 then (idx, TELEMETRY_SIZE, 0x01)
        else if buf.getD 1 0 = 0x56 then (idx, COMMAND_SIZE, 0x02)
        else (0, s.expected_length, s.packet_type)
      else (idx, s.expected_length, s.packet_type)
    if step2.2.1 > 0 ∧ step2.1 ≥ step2.2.1 then
      { state := { rx_buffer := buf, rx_index := 0, expected_length := 0,
                   packet_type := step2.2.2 },
        emitted := if step2.2.2 = 0x02 then some (buf.take COMMAND_SIZE)
                   else none,
        writeIndex := s.rx_index }
    else
      { state := { rx_buffer := buf, rx_index := step2.1,
                   expected_length := step2.2.1, packet_type := step2.2.2 },
        emitted := none, writeIndex := s.rx_index }

/-- Model of `COMM_ProcessReceivedData` on a whole byte list: the final
parser state, the Command frames enqueued (in order) and the buffer
indices written (in order). -/
def processData (s : CommState) (data : List Nat) :
    CommState × List (List Nat) × List Nat :=
  match data with
  | [] => (s, [], [])
  | b :: rest =>
      let st := processByte s b
      let r := processData st.state rest
      (r.1,
       (match st.emitted with
        | some f => f :: r.2.1
        | none => r.2.1),
       st.writeIndex :: r.2.2)

/-! ## Watchdog task (main.c, `WatchdogTask`) -/

/-- Result of one watchdog evaluation: the new `system_state`, how many
times `ShutdownPayload` was invoked, and the error-logging effects. -/
structure WatchdogResult where
  state : Nat
  shutdowns : Nat
  effects : List Effect
deriving DecidableEq

/-- Model of one iteration of `WatchdogTask` (main.c lines 614-636).  The
battery rule compares `current_telemetry.battery_voltage` against
`BATTERY_CRITICAL`; the temperature rule compares the `float` field
`temperature_bme` against `70.0f` and `-20.0f`, which this embedding
abstracts as the Boolean input `tempOutOfRange` (floating point is not
modelled; no claim below depends on the comparison itself). -/
def WatchdogEval (battery_voltage : Nat) (tempOutOfRange : Bool)
    (st : Nat) : WatchdogResult :=
  let afterBattery : Nat × Nat :=
    if battery_voltage < BATTERY_CRITICAL then (STATE_LOW_POWER, 1)
    else (st, 0)
  if tempOutOfRange then
    { state := STATE_SAFE, shutdowns := afterBattery.2,
      effects := [Effect.logError ERROR_TEMPERATURE] }
  else
    { state := afterBattery.1, shutdowns := afterBattery.2, effects := [] }

/-- Run of several consecutive watchdog evaluations, returning the final
state and the total number of `ShutdownPayload` invocations. -/
def runWatchdog (st : Nat) : List (Nat × Bool) → Nat × Nat
  | [] => (st, 0)
  | (bv, t) :: rest =>
      let r := WatchdogEval bv t st
      let rec_ := runWatchdog r.state rest
      (rec_.1, r.shutdowns + rec_.2)

/-! ## Beacon gating (main.c, `CommTask` and `COMM_SendBeacon`) -/

/-- Model of the 32-bit tick difference `HAL_GetTick() - last_beacon`
(unsigned wraparound subtraction on `uint32_t`). -/
def elapsed32 (tick last : Nat) : Nat :=
  (tick % 4294967296 + 4294967296 - last % 4294967296) % 4294967296

/-- Model of the beacon guard in `CommTask` (main.c lines 604-605):
`(HAL_GetTick() - last_beacon) > 30000 && (system_state == STATE_NOMINAL
|| system_state == STATE_IDLE)`. -/
def beaconDue (tick last_beacon st : Nat) : Bool :=
  decide (elapsed32 tick last_beacon > 30000) &&
  (decide (st = STATE_NOMINAL) || decide (st = STATE_IDLE))

/-- Model of `COMM_SendBeacon` (main.c lines 455-462): the six beacon
bytes. -/
def COMM_SendBeacon (st boot_count battery_voltage : Nat) : List Nat :=
  [0xAA, 0x59, st % 256, boot_count % 256,
   battery_voltage / 256 % 256, battery_voltage % 256]

/-- Model of one beacon check of `CommTask`: the beacons emitted by this
check and the updated `last_beacon`. -/
def beaconCheck (tick last_beacon st boot_count battery_voltage : Nat) :
    List (List Nat) × Nat :=
  if beaconDue tick last_beacon st then
    ([COMM_SendBeacon st boot_count battery_voltage], tick)
  else
    ([], last_beacon)

/-! ## Radiation task (main.c, `RadiationTask`) -/

/-- Model of the `uint32_t` delta `current_count - last_count` computed by
`RadiationTask` (unsigned wraparound subtraction). -/
def radiationDelta (last current : Nat) : Nat :=
  (current % 4294967296 + 4294967296 - last % 4294967296) % 4294967296

/-- Run of `RadiationTask` iterations over a list of counter reads taken
one second apart, starting from a `(radiation_cps, last_count)` pair. -/
def runRadiation (st : Nat × Nat) (reads : List Nat) : Nat × Nat :=
  reads.foldl (fun s c => (radiationDelta s.2 c, c)) st

/-! ## Core state and its operations -/

/-- Fields of the process-wide mutable state of the core that the modelled
operations touch. -/
structure CoreState where
  system_state : Nat
  error_flags : Nat
  battery_voltage : Nat
  radiation_cps : Nat
  last_count : Nat
deriving DecidableEq

/-- Fold the effect trace of a dispatcher or watchdog run into the sticky
`error_flags` byte; only `LogError` effects touch it. -/
def applyEffects (error_flags : Nat) : List Effect → Nat
  | [] => error_flags
  | Effect.logError c :: rest => applyEffects (LogError error_flags c) rest
  | _ :: rest => applyEffects error_flags rest

/-- Operations of the core that mutate the modelled state: dispatching a
command packet, one watchdog evaluation, one radiation-task iteration with
a fresh counter read, one sensor-cycle battery update, and a direct
`LogError` call from any component. -/
inductive CoreOp where
  | dispatch : CommandPacket_t → CoreOp
  | watchdog : Bool → CoreOp
  | radiationRead : Nat → CoreOp
  | sensorCycle : Nat → CoreOp
  | logError : Nat → CoreOp

/-- Step function of the core: how each operation transforms the modelled
process-wide state. -/
def coreStep (op : CoreOp) (s : CoreState) : CoreState :=
  match op with
  | CoreOp.dispatch cmd =>
      let r := ProcessCommand s.system_state cmd
      { s with system_state := r.state,
               error_flags := applyEffects s.error_flags r.effects }
  | CoreOp.watchdog tempOut =>
      let r := WatchdogEval s.battery_voltage tempOut s.system_state
      { s with system_state := r.state,
               error_flags := applyEffects s.error_flags r.effects }
  | CoreOp.radiationRead c =>
      { s with radiation_cps := radiationDelta s.last_count c,
               last_count := c }
  | CoreOp.sensorCycle bv =>
      { s with battery_voltage := bv }
  | CoreOp.logError c =>
      { s with error_flags := LogError s.error_flags c }

/-! ## Parser invariant and concrete packets used by the theorems -/

/-- Invariant of the parser state of `COMM_ProcessReceivedData`: the
buffer keeps its 256-byte size, and the accumulation index is either in
the sync-hunting phase (`expected_length = 0`, index at most 1) or in the
accumulation phase with a recognised frame length and an index strictly
below it. -/
def CommInv (s : CommState) : Prop :=
  s.rx_buffer.length = 256 ∧
  ((s.expected_length = 0 ∧ s.rx_index ≤ 1) ∨
   ((s.expected_length = 70 ∨ s.expected_length = 73) ∧
    2 ≤ s.rx_index ∧ s.rx_index < s.expected_length))

instance (s : CommState) : Decidable (CommInv s) := by
  unfold CommInv
  infer_instance

/-- Wire bytes of a complete Command frame whose embedded checksum (0) is
wrong: sync `0xAA 0x56` followed by 71 zero bytes. -/
def badCmdBytes : List Nat := 0xAA :: 0x56 :: List.replicate 71 0

/-- Command packet obtained by casting `badCmdBytes`: its embedded checksum
0 differs from the recomputed checksum 65279. -/
def badCmd : CommandPacket_t :=
  { sync1 := 0xAA, sync2 := 0x56, command_id := 0, sequence_number := 0,
    parameter_length := 0, parameters := List.replicate 64 0, checksum := 0 }

/-- Checksum-valid Ping packet whose `parameter_length` field (65) exceeds
the 64-byte capacity of the parameter buffer. -/
def cmdOverLong : CommandPacket_t :=
  { sync1 := 0xAA, sync2 := 0x56, command_id := 0x01, sequence_number := 0,
    parameter_length := 65, parameters := List.replicate 64 0,
    checksum := 65213 }

/-- Checksum-valid packet carrying the `CMD_UPDATE_FIRMWARE` identifier
(0x07). -/
def cmdUpdateFirmware : CommandPacket_t :=
  { sync1 := 0xAA, sync2 := 0x56, command_id := 0x07, sequence_number := 0,
    parameter_length := 0, parameters := List.replicate 64 0,
    checksum := 65272 }

/-- Telemetry packet whose `timestamp` (1) differs from the transmission
tick used in the counterexample (0); all other fields zero. -/
def telTimestampOne : TelemetryPacket_t :=
  { sync1 := 0, sync2 := 0, packet_type := 0, sequence_number := 0,
    timestamp := 1, mag_x := 0, mag_y := 0, mag_z := 0, corrosion_raw := 0,
    radiation_cps := 0, temperature_bme := 0, pressure := 0, humidity := 0,
    temperature_tmp := 0, latitude := 0, longitude := 0, altitude := 0,
    gps_quality := 0, gps_satellites := 0, battery_voltage := 0,
    battery_current := 0, boot_count := 0, error_flags := 0,
    system_state := 0, uptime := 0, checksum := 0 }

/-- Image of a telemetry packet under the field overwrites performed by
`COMM_SendTelemetry` before transmission: fixed header bytes, the
transmission tick, and the freshly computed checksum. -/
def telemetryEncoded (tick : Nat) (p : TelemetryPacket_t) : TelemetryPacket_t :=
  { p with sync1 := 0xAA, sync2 := 0x55, packet_type := 0x01,
           timestamp := tick,
           checksum := CalculateChecksum (telemetryBody
             { p with sync1 := 0xAA, sync2 := 0x55, packet_type := 0x01,
                      timestamp := tick }) }

/-- Image of a command packet under the field overwrites performed by the
spec-modelled command encoder: fixed sync bytes and the freshly computed
checksum. -/
def commandEncoded (p : CommandPacket_t) : CommandPacket_t :=
  { p with sync1 := 0xAA, sync2 := 0x56,
           checksum := CalculateChecksum (commandBody
             { p with sync1 := 0xAA, sync2 := 0x56 }) }

/-! ## Helper lemmas -/

theorem CalculateChecksum_lt (bytes : List Nat) : CalculateChecksum bytes < 65536 := by
  unfold CalculateChecksum
  omega

theorem paramBytes_length (p : CommandPacket_t) : (paramBytes p).length = 64 := by
  simp [paramBytes]

theorem commandBody_length (p : CommandPacket_t) : (commandBody p).length = 71 := by
  simp [commandBody, paramBytes_length p]

theorem telemetryBody_length (p : TelemetryPacket_t) : (telemetryBody p).length = 68 := by
  simp [telemetryBody]

theorem serializeCommand_take71 (p : CommandPacket_t) :
    (serializeCommand p).take 71 = commandBody p := by
  rw [serializeCommand]
  exact List.take_left' (commandBody_length p)

theorem serializeTelemetry_take68 (p : TelemetryPacket_t) :
    (serializeTelemetry p).take 68 = telemetryBody p := by
  rw [serializeTelemetry]
  exact List.take_left' (telemetryBody_length p)

theorem paramBytes_eq (p : CommandPacket_t) (hlen : p.parameters.length = 64)
    (hb : ∀ b ∈ p.parameters, b < 256) : paramBytes p = p.parameters := by
  unfold paramBytes
  have hm : p.parameters.map (fun b => b % 256) = p.parameters := by
    rw [List.map_congr_left (fun a ha => Nat.mod_eq_of_lt (hb a ha)), List.map_id']
  rw [hm]
  exact List.take_left' hlen

theorem deserialize_serializeCommand (p : CommandPacket_t) (h : p.WF) :
    deserializeCommand (serializeCommand p) = p := by
  obtain ⟨s1, s2, cid, seq, plen, params, ck⟩ := p
  obtain ⟨h1, h2, h3, h4, h5, h6, h7, h8⟩ := h
  dsimp only at h1 h2 h3 h4 h5 h6 h7 h8
  have hpb : paramBytes ⟨s1, s2, cid, seq, plen, params, ck⟩ = params :=
    paramBytes_eq _ h6 h7
  have hpblen : (paramBytes ⟨s1, s2, cid, seq, plen, params, ck⟩).length = 64 :=
    paramBytes_length _
  show deserializeCommand
      (commandBody ⟨s1, s2, cid, seq, plen, params, ck⟩ ++
        [ck % 256, ck / 256 % 256]) = _
  rw [commandBody]
  simp only [List.cons_append]
  rw [deserializeCommand]
  have htake : (paramBytes ⟨s1, s2, cid, seq, plen, params, ck⟩ ++
      [ck % 256, ck / 256 % 256]).take 64 =
      paramBytes ⟨s1, s2, cid, seq, plen, params, ck⟩ :=
    List.take_left' hpblen
  have hg64 : (paramBytes ⟨s1, s2, cid, seq, plen, params, ck⟩ ++
      [ck % 256, ck / 256 % 256]).getD 64 0 = ck % 256 := by
    rw [List.getD_append_right _ _ 0 64 (le_of_eq hpblen), hpblen]
    simp
  have hg65 : (paramBytes ⟨s1, s2, cid, seq, plen, params, ck⟩ ++
      [ck % 256, ck / 256 % 256]).getD 65 0 = ck / 256 % 256 := by
    rw [List.getD_append_right _ _ 0 65 (by omega), hpblen]
    simp
  rw [htake, hg64, hg65, hpb]
  simp only [CommandPacket_t.mk.injEq]
  refine ⟨?_, ?_, ?_, ?_, ?_, ?_, ?_⟩ <;> first | trivial | omega

theorem deserialize_serializeTelemetry (p : TelemetryPacket_t) (h : p.WF) :
    deserializeTelemetry (serializeTelemetry p) = p := by
  obtain ⟨f1, f2, f3, f4, f5, f6, f7, f8, f9, f10, f11, f12, f13, f14, f15,
    f16, f17, f18, f19, f20, f21, f22, f23, f24, f25, f26⟩ := p
  obtain ⟨h1, h2, h3, h4, h5, h6, h7, h8, h9, h10, h11, h12, h13, h14, h15,
    h16, h17, h18, h19, h20, h21, h22, h23, h24, h25, h26⟩ := h
  dsimp only at *
  show deserializeTelemetry (telemetryBody _ ++ [f26 % 256, f26 / 256 % 256]) = _
  rw [telemetryBody]
  simp only [List.cons_append, List.nil_append]
  rw [deserializeTelemetry]
  simp only [TelemetryPacket_t.mk.injEq]
  refine ⟨?_, ?_, ?_, ?_, ?_, ?_, ?_, ?_, ?_, ?_, ?_, ?_, ?_, ?_, ?_, ?_,
    ?_, ?_, ?_, ?_, ?_, ?_, ?_, ?_, ?_, ?_⟩ <;> first | trivial | omega

theorem encodeCommand_eq (p : CommandPacket_t) :
    encodeCommand p = serializeCommand (commandEncoded p) := rfl

theorem encodeTelemetry_eq (t : Nat) (p : TelemetryPacket_t) :
    encodeTelemetry t p = serializeTelemetry (telemetryEncoded t p) := rfl

theorem commandEncoded_WF (p : CommandPacket_t) (h : p.WF) :
    (commandEncoded p).WF := by
  obtain ⟨h1, h2, h3, h4, h5, h6, h7, h8⟩ := h
  exact ⟨(by decide : (0xAA : Nat) < 256), (by decide : (0x56 : Nat) < 256),
    h3, h4, h5, h6, h7, Nat.lt_of_lt_of_le (Nat.lt_succ_of_le (Nat.sub_le _ _)) (by decide)⟩

theorem telemetryEncoded_WF (t : Nat) (p : TelemetryPacket_t)
    (ht : t < 4294967296) (h : p.WF) : (telemetryEncoded t p).WF := by
  obtain ⟨h1, h2, h3, h4, h5, h6, h7, h8, h9, h10, h11, h12, h13, h14, h15,
    h16, h17, h18, h19, h20, h21, h22, h23, h24, h25, h26⟩ := h
  exact ⟨(by decide : (0xAA : Nat) < 256), (by decide : (0x55 : Nat) < 256),
    (by decide : (0x01 : Nat) < 256), h4, ht, h6, h7, h8, h9, h10, h11, h12,
    h13, h14, h15, h16, h17, h18, h19, h20, h21, h22, h23, h24, h25,
    Nat.lt_of_lt_of_le (Nat.lt_succ_of_le (Nat.sub_le _ _)) (by decide)⟩

theorem processByte_inv (s : CommState) (b : Nat) (h : CommInv s) :
    CommInv (processByte s b).state ∧ (processByte s b).writeIndex < 73 ∧
    ((processByte s b).state.rx_index = s.rx_index + 1 ∨
     (processByte s b).state.rx_index = 0) ∧
    ((processByte s b).emitted.isSome = true →
      (processByte s b).state.rx_index = 0) := by
  obtain ⟨hlen, hc⟩ := h
  simp only [processByte, CommInv, TELEMETRY_SIZE, COMMAND_SIZE]
  split_ifs <;>
    simp_all [List.length_set, Option.isSome] <;>
    omega

theorem processData_inv (data : List Nat) : ∀ s : CommState, CommInv s →
    CommInv (processData s data).1 ∧
    ∀ w ∈ (processData s data).2.2, w < 73 := by
  induction data with
  | nil =>
      intro s hs
      exact ⟨hs, by simp [processData]⟩
  | cons b rest ih =>
      intro s hs
      obtain ⟨hinv, hw, hstep, hemit⟩ := processByte_inv s b hs
      obtain ⟨hinv2, hws⟩ := ih (processByte s b).state hinv
      simp only [processData]
      refine ⟨hinv2, ?_⟩
      intro w hwmem
      simp only [List.mem_cons] at hwmem
      rcases hwmem with rfl | hmem
      · exact hw
      · exact hws w hmem

theorem applyEffects_testBit (es : List Effect) : ∀ (flags i : Nat),
    flags.testBit i = true → (applyEffects flags es).testBit i = true := by
  induction es with
  | nil =>
      intro flags i h
      exact h
  | cons e rest ih =>
      intro flags i h
      cases e with
      | logError c =>
          exact ih (LogError flags c) i (by simp [LogError, Nat.testBit_lor, h])
      | uartTx l => exact ih flags i h
      | sendTelemetry => exact ih flags i h
      | piWakePulse => exact ih flags i h
      | systemReset => exact ih flags i h

/-! ## Claim theorems -/

/-- C1 (counterexample): the Frame Codec does not validate checksums.  A
complete Command frame whose embedded checksum (0) disagrees with the
recomputed checksum over all bytes except the trailing two-byte checksum
field is nevertheless forwarded to the command queue by
`COMM_ProcessReceivedData`. -/
theorem frame_codec_forwards_invalid_checksum_frame :
    (processData initialCommState badCmdBytes).2.1 = [badCmdBytes] ∧
    deserializeCommand badCmdBytes = badCmd ∧
    CalculateChecksum (badCmdBytes.take 71) ≠ badCmd.checksum :=
  ⟨by decide, by decide, by decide⟩

/-- C1 (amended): completed Command frames are enqueued by the Frame Codec
without checksum validation; the checksum is instead recomputed by the
Command Dispatcher `ProcessCommand` over all frame bytes except the
trailing two-byte checksum field, and on disagreement the frame is
discarded with a protocol-level fault (`LogError ERROR_UART`), no dispatch
action and no state change, so only checksum-valid frames are ever
dispatched. -/
theorem dispatcher_checksum_validation (st : Nat) (cmd : CommandPacket_t)
    (h1 : cmd.sync1 = 0xAA) (h2 : cmd.sync2 = 0x56)
    (hbad : CalculateChecksum ((serializeCommand cmd).take 71) ≠ cmd.checksum) :
    ProcessCommand st cmd =
      { state := st, effects := [Effect.logError ERROR_UART],
        paramReads := List.range 64 } := by
  simp [ProcessCommand, h1, h2, hbad]

/-- Witness for `dispatcher_checksum_validation` at the concrete frame
`badCmd`. -/
theorem dispatcher_checksum_validation_witness :
    badCmd.sync1 = 0xAA ∧ badCmd.sync2 = 0x56 ∧
    CalculateChecksum ((serializeCommand badCmd).take 71) ≠ badCmd.checksum ∧
    ProcessCommand STATE_NOMINAL badCmd =
      { state := STATE_NOMINAL, effects := [Effect.logError ERROR_UART],
        paramReads := List.range 64 } :=
  ⟨rfl, rfl, by decide,
   dispatcher_checksum_validation STATE_NOMINAL badCmd rfl rfl (by decide)⟩

/-- C2 (counterexample): `decode(encode(p)) = p` fails for a telemetry
packet whose `timestamp` differs from the transmission tick, because
`COMM_SendTelemetry` overwrites the timestamp with `HAL_GetTick()` before
computing the checksum and transmitting. -/
theorem telemetry_roundtrip_fails_on_timestamp :
    deserializeTelemetry (encodeTelemetry 0 telTimestampOne) ≠ telTimestampOne := by
  decide

/-- C2 (amended): for both packet kinds the checksum computed over the
encoded bytes excluding the trailing checksum field equals the embedded
checksum, and decoding the encoded bytes yields the packet with exactly
the encoder-overwritten fields changed: for commands the sync bytes and
checksum (`commandEncoded`), for telemetry additionally the packet type
and the timestamp, which is replaced by the transmission tick
(`telemetryEncoded`).  For a packet whose overwritten fields already hold
those values the round trip is exact. -/
theorem checksum_roundtrip_amended :
    (∀ p : CommandPacket_t, p.WF →
      CalculateChecksum ((encodeCommand p).take 71) =
        (deserializeCommand (encodeCommand p)).checksum ∧
      deserializeCommand (encodeCommand p) = commandEncoded p) ∧
    (∀ (t : Nat) (p : TelemetryPacket_t), t < 4294967296 → p.WF →
      CalculateChecksum ((encodeTelemetry t p).take 68) =
        (deserializeTelemetry (encodeTelemetry t p)).checksum ∧
      deserializeTelemetry (encodeTelemetry t p) = telemetryEncoded t p) := by
  constructor
  · intro p hp
    have hwf := commandEncoded_WF p hp
    have hd : deserializeCommand (encodeCommand p) = commandEncoded p := by
      rw [encodeCommand_eq]
      exact deserialize_serializeCommand _ hwf
    refine ⟨?_, hd⟩
    rw [hd, encodeCommand_eq, serializeCommand_take71]
    rfl
  · intro t p ht hp
    have hwf := telemetryEncoded_WF t p ht hp
    have hd : deserializeTelemetry (encodeTelemetry t p) = telemetryEncoded t p := by
      rw [encodeTelemetry_eq]
      exact deserialize_serializeTelemetry _ hwf
    refine ⟨?_, hd⟩
    rw [hd, encodeTelemetry_eq, serializeTelemetry_take68]
    rfl

/-- Witness for `checksum_roundtrip_amended` at concrete packets of both
kinds. -/
theorem checksum_roundtrip_amended_witness :
    badCmd.WF ∧ (0 : Nat) < 4294967296 ∧ telTimestampOne.WF ∧
    deserializeCommand (encodeCommand badCmd) = commandEncoded badCmd ∧
    deserializeTelemetry (encodeTelemetry 0 telTimestampOne) =
      telemetryEncoded 0 telTimestampOne :=
  ⟨by decide, by decide, by decide,
   (checksum_roundtrip_amended.1 badCmd (by decide)).2,
   (checksum_roundtrip_amended.2 0 telTimestampOne (by decide) (by decide)).2⟩

/-- C3 (counterexample): with the battery reading 3399 mV at two
consecutive watchdog evaluations — a single crossing of the 3400 mV
threshold — `ShutdownPayload` is invoked twice, not exactly once per
crossing: `WatchdogTask` re-invokes it at every 5-second evaluation while
the voltage stays below the threshold. -/
theorem payload_shutdown_twice_per_crossing :
    runWatchdog STATE_NOMINAL [(3399, false), (3399, false)] =
      (STATE_LOW_POWER, 2) := by
  decide

/-- C3 (amended): every watchdog evaluation with battery voltage 3399 mV
(below the 3400 mV critical threshold) sets `SystemState` to LowPower and
invokes payload shutdown exactly once per evaluation — hence repeatedly,
once per 5-second evaluation, while the voltage stays below the threshold
rather than once per crossing; an evaluation at 3401 mV leaves the state
unchanged by this rule and performs no shutdown. -/
theorem battery_threshold_rule (st : Nat) :
    WatchdogEval 3399 false st =
      { state := STATE_LOW_POWER, shutdowns := 1, effects := [] } ∧
    WatchdogEval 3401 false st =
      { state := st, shutdowns := 0, effects := [] } := by
  constructor <;> norm_num [WatchdogEval, BATTERY_CRITICAL]

/-- C4 (counterexample): with state Idle and exactly 30000 ms elapsed
since the last beacon, no beacon is emitted — the guard in `CommTask` is
a strict comparison `> 30000`, not `≥ 30000`. -/
theorem no_beacon_at_exactly_30000 :
    beaconCheck 30000 0 STATE_IDLE 0 3700 = ([], 0) := by
  decide

/-- C4 (amended): with `SystemState = Safe` the Comm unit never emits a
beacon regardless of elapsed time; with state Idle or Nominal and
strictly more than 30000 ms elapsed since the last beacon, exactly one
beacon is emitted per check. -/
theorem beacon_gating :
    (∀ tick last boot bv : Nat,
      beaconCheck tick last STATE_SAFE boot bv = ([], last)) ∧
    (∀ tick last st boot bv : Nat, st = STATE_NOMINAL ∨ st = STATE_IDLE →
      elapsed32 tick last > 30000 →
      (beaconCheck tick last st boot bv).1 = [COMM_SendBeacon st boot bv]) := by
  constructor
  · intro tick last boot bv
    simp [beaconCheck, beaconDue, STATE_SAFE, STATE_NOMINAL, STATE_IDLE]
  · intro tick last st boot bv hst he
    have hdue : beaconDue tick last st = true := by
      rcases hst with rfl | rfl <;>
        simp [beaconDue, STATE_NOMINAL, STATE_IDLE, he]
    simp [beaconCheck, hdue]

/-- Witness for `beacon_gating`: Safe suppresses the beacon at a large
elapsed time, and Idle at 30001 ms elapsed emits exactly one beacon. -/
theorem beacon_gating_witness :
    beaconCheck 99999 0 STATE_SAFE 3 3700 = ([], 0) ∧
    (beaconCheck 30001 0 STATE_IDLE 3 3700).1 =
      [COMM_SendBeacon STATE_IDLE 3 3700] :=
  ⟨beacon_gating.1 99999 0 3 3700,
   beacon_gating.2 30001 0 STATE_IDLE 3 3700 (Or.inr rfl) (by decide)⟩

/-- C5: for every checksum-valid command packet whose `parameter_length`
exceeds the 64-byte capacity, every index of `parameters` read by the
dispatcher (checksum recomputation, the `SetMode` parameter access, and
the verbatim `TransmitFile` retransmission) is at most 63. -/
theorem param_reads_bounded (st : Nat) (cmd : CommandPacket_t)
    (hchk : CalculateChecksum ((serializeCommand cmd).take 71) = cmd.checksum)
    (hlen : cmd.parameter_length > 64) :
    ∀ i ∈ (ProcessCommand st cmd).paramReads, i ≤ 63 := by
  intro i hi
  unfold ProcessCommand at hi
  split_ifs at hi <;>
    simp_all [List.mem_range, List.mem_cons, List.mem_append] <;>
    omega

/-- Witness for `param_reads_bounded` at a checksum-valid packet with
`parameter_length = 65`. -/
theorem param_reads_bounded_witness :
    CalculateChecksum ((serializeCommand cmdOverLong).take 71) =
      cmdOverLong.checksum ∧
    cmdOverLong.parameter_length > 64 ∧
    63 ∈ (ProcessCommand STATE_NOMINAL cmdOverLong).paramReads ∧ 63 ≤ 63 :=
  ⟨by decide, by decide, by decide,
   param_reads_bounded STATE_NOMINAL cmdOverLong (by decide) (by decide) 63
     (by decide)⟩

/-- C6: reading the radiation counter at 100 and then 137 one second
later reports `radiation_cps = 37`; in general the reported delta is the
modular (mod `2^32`) difference of the two counter reads, which is never
negative, also across counter wraparound. -/
theorem radiation_delta_modular :
    (runRadiation (0, 0) [100, 137]).1 = 37 ∧
    ∀ last current : Nat, last < 4294967296 → current < 4294967296 →
      ((radiationDelta last current : Int) =
        ((current : Int) - (last : Int)) % 4294967296 ∧
       0 ≤ ((current : Int) - (last : Int)) % 4294967296) := by
  refine ⟨by decide, ?_⟩
  intro last current hl hc
  unfold radiationDelta
  constructor
  · omega
  · omega

/-- Witness for `radiation_delta_modular` across a counter wraparound:
reads `2^32 - 10` then `5` report a delta of 15. -/
theorem radiation_delta_modular_witness :
    radiationDelta 4294967286 5 = 15 ∧
    ((radiationDelta 4294967286 5 : Int) =
      (((5 : Nat) : Int) - ((4294967286 : Nat) : Int)) % 4294967296) :=
  ⟨by decide,
   (radiation_delta_modular.2 4294967286 5 (by decide) (by decide)).1⟩

/-- C7: every bit set in `error_flags` stays set across every modelled
operation of the core — `error_flags` is only ever accumulated by bitwise
OR (`LogError`) and no operation clears a bit. -/
theorem error_flags_sticky (op : CoreOp) (s : CoreState) (i : Nat)
    (h : s.error_flags.testBit i = true) :
    ((coreStep op s).error_flags).testBit i = true := by
  cases op with
  | dispatch cmd => exact applyEffects_testBit _ _ _ h
  | watchdog t => exact applyEffects_testBit _ _ _ h
  | radiationRead c => exact h
  | sensorCycle bv => exact h
  | logError c =>
      simp only [coreStep, LogError, Nat.testBit_lor, h]
      rfl

/-- Witness for `error_flags_sticky`: bit 0, set in a concrete state,
survives a `LogError` operation. -/
theorem error_flags_sticky_witness :
    (({ system_state := STATE_NOMINAL, error_flags := 1,
        battery_voltage := 3700, radiation_cps := 0, last_count := 0 } :
        CoreState).error_flags).testBit 0 = true ∧
    ((coreStep (CoreOp.logError 2)
        { system_state := STATE_NOMINAL, error_flags := 1,
          battery_voltage := 3700, radiation_cps := 0,
          last_count := 0 }).error_flags).testBit 0 = true :=
  ⟨by decide,
   error_flags_sticky (CoreOp.logError 2)
     { system_state := STATE_NOMINAL, error_flags := 1,
       battery_voltage := 3700, radiation_cps := 0, last_count := 0 } 0
     (by decide)⟩

/-- C8 (counterexample): dispatching a checksum-valid packet carrying the
`CMD_UPDATE_FIRMWARE` identifier (0x07) does record a fault — it falls
into the `default` branch and invokes `LogError ERROR_UNKNOWN_COMMAND` —
contradicting the claim that no fault is recorded for 0x07, 0x08, 0x09. -/
theorem update_firmware_records_fault :
    (ProcessCommand STATE_NOMINAL cmdUpdateFirmware).effects =
      [Effect.logError ERROR_UNKNOWN_COMMAND] ∧
    CalculateChecksum ((serializeCommand cmdUpdateFirmware).take 71) =
      cmdUpdateFirmware.checksum :=
  ⟨by decide, by decide⟩

/-- C8 (amended): the identifiers `UpdateFirmware` (0x07), `SetSchedule`
(0x08) and `Beacon` (0x09) have no dedicated case in `ProcessCommand`;
they are handled exactly like every other unrecognized identifier: a
fault is recorded in ErrorFlags (`LogError ERROR_UNKNOWN_COMMAND`) and no
state change occurs. -/
theorem unknown_command_dispatch (st : Nat) (cmd : CommandPacket_t)
    (h1 : cmd.sync1 = 0xAA) (h2 : cmd.sync2 = 0x56)
    (hchk : CalculateChecksum ((serializeCommand cmd).take 71) = cmd.checksum)
    (hid : cmd.command_id ∉ ([CMD_PING, CMD_GET_TELEMETRY, CMD_CAPTURE_IMAGE,
      CMD_SET_MODE, CMD_RESET, CMD_TRANSMIT_FILE] : List Nat)) :
    ProcessCommand st cmd =
      { state := st, effects := [Effect.logError ERROR_UNKNOWN_COMMAND],
        paramReads := List.range 64 } := by
  simp only [List.mem_cons, List.not_mem_nil, or_false, not_or] at hid
  obtain ⟨n1, n2, n3, n4, n5, n6⟩ := hid
  simp [ProcessCommand, h1, h2, hchk, n1, n2, n3, n4, n5, n6]

/-- Witness for `unknown_command_dispatch` at the concrete checksum-valid
`CMD_UPDATE_FIRMWARE` packet. -/
theorem unknown_command_dispatch_witness :
    CalculateChecksum ((serializeCommand cmdUpdateFirmware).take 71) =
      cmdUpdateFirmware.checksum ∧
    ProcessCommand STATE_IDLE cmdUpdateFirmware =
      { state := STATE_IDLE,
        effects := [Effect.logError ERROR_UNKNOWN_COMMAND],
        paramReads := List.range 64 } :=
  ⟨by decide,
   unknown_command_dispatch STATE_IDLE cmdUpdateFirmware rfl rfl (by decide)
     (by decide)⟩

/-- C9: from any parser state satisfying the accumulation invariant (in
particular the initial state), processing any finite byte sequence keeps
the invariant; every buffer write lands at an index below 73 (hence
inside the 256-byte `rx_buffer`), so `rx_index` never exceeds
`sizeof(CommandPacket_t)` = 73; and every byte whose arrival completes a
frame leaves `rx_index` back at 0. -/
theorem rx_index_safety (s : CommState) (data : List Nat) (h : CommInv s) :
    (CommInv (processData s data).1 ∧
     ∀ w ∈ (processData s data).2.2, w + 1 ≤ 73 ∧ w < 256) ∧
    ∀ b : Nat, (processByte s b).emitted.isSome = true →
      (processByte s b).state.rx_index = 0 := by
  obtain ⟨h1, h2⟩ := processData_inv data s h
  refine ⟨⟨h1, fun w hw => ?_⟩, fun b hb => (processByte_inv s b h).2.2.2 hb⟩
  have := h2 w hw
  omega

/-- Witness for `rx_index_safety`: the initial state satisfies the
invariant, and it is preserved across a complete Command frame. -/
theorem rx_index_safety_witness :
    CommInv initialCommState ∧
    CommInv (processData initialCommState badCmdBytes).1 :=
  ⟨by decide,
   ((rx_index_safety initialCommState badCmdBytes (by decide)).1).1⟩

/-- C10: because `LogError` ORs the numeric error-code value into
`error_flags`, logging the UART error (0x03) yields exactly the flags of
logging the I2C error (0x01) and then the SPI error (0x02), for every
initial flags value — distinct fault types are not uniquely decodable
from the `error_flags` byte. -/
theorem error_codes_not_decodable (f : Nat) :
    LogError f ERROR_UART = LogError (LogError f ERROR_I2C) ERROR_SPI := by
  unfold LogError ERROR_UART ERROR_I2C ERROR_SPI
  rw [show (3 : Nat) = 1 ||| 2 from by decide, Nat.lor_assoc]

end CubeSat
